import Mathlib

/-!
Verification of `src/core/eolearn/core/feature_types.py` (eo-learn).

The module defines a Python `Enum` called `FeatureType` with 13 members,
each carrying a fixed lowercase string identifier, together with pure
classification methods (`has_value`, `is_spatial`, `is_time_dependent`,
`is_discrete`, `is_vector`, `has_dict`, `contains_ndarrays`, `ndim`,
`type`).  We embed the enumeration as a closed inductive type and each
method as a Lean function translated directly from the source.
-/

namespace EOLearn

/-- The 13 members of the Python enum `FeatureType`
(feature_types.py, lines 30-42). -/
inductive FeatureType where
  | DATA
  | MASK
  | SCALAR
  | LABEL
  | VECTOR
  | DATA_TIMELESS
  | MASK_TIMELESS
  | SCALAR_TIMELESS
  | LABEL_TIMELESS
  | VECTOR_TIMELESS
  | META_INFO
  | BBOX
  | TIMESTAMP
  deriving DecidableEq, Fintype, Repr

/-- The string identifier attached to each enum member
(the `DATA = 'data'` assignments, lines 30-42). -/
def FeatureType.value : FeatureType → String
  | .DATA => "data"
  | .MASK => "mask"
  | .SCALAR => "scalar"
  | .LABEL => "label"
  | .VECTOR => "vector"
  | .DATA_TIMELESS => "data_timeless"
  | .MASK_TIMELESS => "mask_timeless"
  | .SCALAR_TIMELESS => "scalar_timeless"
  | .LABEL_TIMELESS => "label_timeless"
  | .VECTOR_TIMELESS => "vector_timeless"
  | .META_INFO => "meta_info"
  | .BBOX => "bbox"
  | .TIMESTAMP => "timestamp"

/-- Iterating over the enum class (`for item in cls`) yields its members in
definition order; this list is that iteration order. -/
def FeatureType.members : List FeatureType :=
  [.DATA, .MASK, .SCALAR, .LABEL, .VECTOR,
   .DATA_TIMELESS, .MASK_TIMELESS, .SCALAR_TIMELESS, .LABEL_TIMELESS,
   .VECTOR_TIMELESS, .META_INFO, .BBOX, .TIMESTAMP]

/-- `FeatureType.has_value` (lines 44-48):
`return any(value == item.value for item in cls)`. -/
def FeatureType.has_value (value : String) : Bool :=
  FeatureType.members.any (fun item => value == item.value)

/-- `FeatureType.is_spatial` (lines 50-59): membership in the frozenset
`{DATA, MASK, VECTOR, DATA_TIMELESS, MASK_TIMELESS, VECTOR_TIMELESS}`. -/
def FeatureType.is_spatial (self : FeatureType) : Bool :=
  [FeatureType.DATA, FeatureType.MASK, FeatureType.VECTOR,
   FeatureType.DATA_TIMELESS, FeatureType.MASK_TIMELESS,
   FeatureType.VECTOR_TIMELESS].contains self

/-- `FeatureType.is_time_dependent` (lines 61-70): membership in
`{DATA, MASK, SCALAR, LABEL, VECTOR}`. -/
def FeatureType.is_time_dependent (self : FeatureType) : Bool :=
  [FeatureType.DATA, FeatureType.MASK, FeatureType.SCALAR,
   FeatureType.LABEL, FeatureType.VECTOR].contains self

/-- `FeatureType.is_discrete` (lines 72-81): membership in
`{MASK, MASK_TIMELESS, LABEL, LABEL_TIMELESS}`. -/
def FeatureType.is_discrete (self : FeatureType) : Bool :=
  [FeatureType.MASK, FeatureType.MASK_TIMELESS, FeatureType.LABEL,
   FeatureType.LABEL_TIMELESS].contains self

/-- `FeatureType.is_vector` (lines 83-91): membership in
`{VECTOR, VECTOR_TIMELESS}`. -/
def FeatureType.is_vector (self : FeatureType) : Bool :=
  [FeatureType.VECTOR, FeatureType.VECTOR_TIMELESS].contains self

/-- `FeatureType.has_dict` (lines 93-101): `self not in
frozenset([TIMESTAMP, BBOX])`. -/
def FeatureType.has_dict (self : FeatureType) : Bool :=
  !([FeatureType.TIMESTAMP, FeatureType.BBOX].contains self)

/-- `FeatureType.contains_ndarrays` (lines 103-113): membership in
`{DATA, MASK, SCALAR, LABEL, DATA_TIMELESS, MASK_TIMELESS,
SCALAR_TIMELESS, LABEL_TIMELESS}`. -/
def FeatureType.contains_ndarrays (self : FeatureType) : Bool :=
  [FeatureType.DATA, FeatureType.MASK, FeatureType.SCALAR,
   FeatureType.LABEL, FeatureType.DATA_TIMELESS, FeatureType.MASK_TIMELESS,
   FeatureType.SCALAR_TIMELESS, FeatureType.LABEL_TIMELESS].contains self

/-- The literal dict appearing inside `ndim` (lines 124-133), as a partial
lookup table; keys absent from the dict give `none` (a Python `KeyError`),
but the table is only consulted under the `contains_ndarrays` guard. -/
def FeatureType.ndimTable : FeatureType → Option Nat
  | .DATA => some 4
  | .MASK => some 4
  | .SCALAR => some 2
  | .LABEL => some 2
  | .DATA_TIMELESS => some 3
  | .MASK_TIMELESS => some 3
  | .SCALAR_TIMELESS => some 1
  | .LABEL_TIMELESS => some 1
  | _ => none

/-- `FeatureType.ndim` (lines 115-134): if `contains_ndarrays` then the
dict lookup, else `return None`. -/
def FeatureType.ndim (self : FeatureType) : Option Nat :=
  if self.contains_ndarrays then self.ndimTable else none

/-- The three Python container kinds returned by `FeatureType.type`:
`list`, `object`, `dict`. -/
inductive ContainerKind where
  | list
  | object
  | dict
  deriving DecidableEq, Repr

/-- `FeatureType.type` (lines 136-145): `list` for TIMESTAMP, `object`
for BBOX, `dict` otherwise. -/
def FeatureType.type (self : FeatureType) : ContainerKind :=
  if self = FeatureType.TIMESTAMP then .list
  else if self = FeatureType.BBOX then .object
  else .dict

/-- Modelled from the spec: the error raised when constructing a
`FeatureType` from a string that is not one of the 13 reserved
identifiers.  Python's `Enum` construction mechanism (`FeatureType(value)`
raising `ValueError`) lives in the standard library, not under `src/`;
the spec calls the failure kind `InvalidFeatureType`. -/
inductive InvalidFeatureType where
  | invalid (value : String)
  deriving DecidableEq, Repr

/-- Modelled from the spec: constructing a `FeatureType` value from a
string.  Python's `Enum.__call__` (not under `src/`) performs a
value-to-member lookup over the members defined in feature_types.py and
raises for unknown values; per the spec it "must fail with an
InvalidValue-style error" exactly when the string is not one of the 13
reserved identifiers. -/
def FeatureType.fromValue (value : String) :
    Except InvalidFeatureType FeatureType :=
  match FeatureType.members.find? (fun item => value == item.value) with
  | some ft => .ok ft
  | none => .error (.invalid value)

/-- The 13 reserved string identifiers, in definition order. -/
def reservedIdentifiers : List String :=
  ["data", "mask", "scalar", "label", "vector",
   "data_timeless", "mask_timeless", "scalar_timeless", "label_timeless",
   "vector_timeless", "meta_info", "bbox", "timestamp"]

/- ------------------------------------------------------------------ -/
/- Theorems                                                            -/
/- ------------------------------------------------------------------ -/

/-- Helper: `members` maps under `value` to exactly the reserved
identifier list. -/
theorem members_map_value :
    FeatureType.members.map FeatureType.value = reservedIdentifiers := by
  decide

/-- C1: `has_value s` is true iff `s` is exactly one of the 13 reserved
identifiers; matching is exact (so e.g. "DATA" and "" yield false), and
the function is total, raising no error. -/
theorem has_value_iff_reserved (s : String) :
    FeatureType.has_value s = true ↔ s ∈ reservedIdentifiers := by
  unfold FeatureType.has_value FeatureType.members reservedIdentifiers
  simp only [List.any_cons, List.any_nil, Bool.or_eq_true, beq_iff_eq,
    List.mem_cons, List.not_mem_nil, FeatureType.value]
  tauto

/-- C1 witness: `has_value` holds at "mask_timeless" (a reserved
identifier) and fails at "DATA" and "" (not reserved). -/
theorem has_value_iff_reserved_witness :
    (FeatureType.has_value "mask_timeless" = true ∧
      "mask_timeless" ∈ reservedIdentifiers) ∧
    (FeatureType.has_value "DATA" ≠ true ∧ "DATA" ∉ reservedIdentifiers) ∧
    (FeatureType.has_value "" ≠ true ∧ "" ∉ reservedIdentifiers) :=
  ⟨⟨(has_value_iff_reserved "mask_timeless").mpr (by decide), by decide⟩,
   ⟨fun h => (by decide : "DATA" ∉ reservedIdentifiers)
      ((has_value_iff_reserved "DATA").mp h), by decide⟩,
   ⟨fun h => (by decide : "" ∉ reservedIdentifiers)
      ((has_value_iff_reserved "").mp h), by decide⟩⟩

/-- C2: `ndim` returns exactly DATA=4, MASK=4, SCALAR=2, LABEL=2,
DATA_TIMELESS=3, MASK_TIMELESS=3, SCALAR_TIMELESS=1, LABEL_TIMELESS=1,
and `none` (not zero, not an error) for the remaining 5 values. -/
theorem ndim_spec :
    FeatureType.ndim .DATA = some 4 ∧
    FeatureType.ndim .MASK = some 4 ∧
    FeatureType.ndim .SCALAR = some 2 ∧
    FeatureType.ndim .LABEL = some 2 ∧
    FeatureType.ndim .DATA_TIMELESS = some 3 ∧
    FeatureType.ndim .MASK_TIMELESS = some 3 ∧
    FeatureType.ndim .SCALAR_TIMELESS = some 1 ∧
    FeatureType.ndim .LABEL_TIMELESS = some 1 ∧
    FeatureType.ndim .VECTOR = none ∧
    FeatureType.ndim .VECTOR_TIMELESS = none ∧
    FeatureType.ndim .META_INFO = none ∧
    FeatureType.ndim .BBOX = none ∧
    FeatureType.ndim .TIMESTAMP = none := by
  decide

/-- C3: `type` returns the list kind exactly for TIMESTAMP, the object
kind exactly for BBOX, and the dict kind for the other 11 values. -/
theorem type_spec (ft : FeatureType) :
    (ft.type = .list ↔ ft = .TIMESTAMP) ∧
    (ft.type = .object ↔ ft = .BBOX) ∧
    (ft ≠ .TIMESTAMP → ft ≠ .BBOX → ft.type = .dict) := by
  revert ft; decide

/-- C3 witness: the three container kinds at TIMESTAMP, BBOX and DATA. -/
theorem type_spec_witness :
    FeatureType.type .DATA = .dict ∧
    (FeatureType.type .TIMESTAMP = .list ↔ FeatureType.TIMESTAMP = .TIMESTAMP) ∧
    (FeatureType.type .BBOX = .object ↔ FeatureType.BBOX = .BBOX) :=
  ⟨(type_spec .DATA).2.2 (by decide) (by decide),
   (type_spec .TIMESTAMP).1, (type_spec .BBOX).2.1⟩

/-- C4: the enumeration has exactly 13 members, listed without repetition,
and their string identifiers are pairwise distinct and are exactly the 13
fixed lowercase reserved identifiers.  (All module operations are pure
functions of the value; nothing mutates the table.) -/
theorem enumeration_spec :
    FeatureType.members.length = 13 ∧
    FeatureType.members.Nodup ∧
    (∀ ft : FeatureType, ft ∈ FeatureType.members) ∧
    FeatureType.members.map FeatureType.value = reservedIdentifiers ∧
    (FeatureType.members.map FeatureType.value).Nodup := by
  refine ⟨by decide, by decide, by decide, members_map_value, by decide⟩

/-- C5: `is_spatial` is true exactly for DATA, MASK, VECTOR,
DATA_TIMELESS, MASK_TIMELESS, VECTOR_TIMELESS, and false for the other 7
values; it is total over the closed enumeration. -/
theorem is_spatial_spec (ft : FeatureType) :
    FeatureType.is_spatial ft = true ↔
      (ft = .DATA ∨ ft = .MASK ∨ ft = .VECTOR ∨
       ft = .DATA_TIMELESS ∨ ft = .MASK_TIMELESS ∨ ft = .VECTOR_TIMELESS) := by
  revert ft; decide

/-- C6: `has_dict` is false exactly for TIMESTAMP and BBOX, and true for
the other 11 values. -/
theorem has_dict_spec (ft : FeatureType) :
    FeatureType.has_dict ft = false ↔ (ft = .TIMESTAMP ∨ ft = .BBOX) := by
  revert ft; decide

/-- C7: `is_discrete` is true exactly for MASK, MASK_TIMELESS, LABEL,
LABEL_TIMELESS, and false for the other 9 values. -/
theorem is_discrete_spec (ft : FeatureType) :
    FeatureType.is_discrete ft = true ↔
      (ft = .MASK ∨ ft = .MASK_TIMELESS ∨ ft = .LABEL ∨
       ft = .LABEL_TIMELESS) := by
  revert ft; decide

/-- C8: constructing a `FeatureType` from a string succeeds, yielding the
member carrying that identifier, exactly when the string is one of the 13
reserved identifiers, and otherwise fails with the InvalidFeatureType
error for that string — no other failure kind. -/
theorem fromValue_spec (s : String) :
    (match FeatureType.fromValue s with
     | .ok ft => ft.value = s ∧ s ∈ reservedIdentifiers
     | .error e => e = .invalid s ∧ s ∉ reservedIdentifiers) := by
  unfold FeatureType.fromValue
  cases hfind : FeatureType.members.find? (fun item => s == item.value) with
  | some ft =>
      have hp := List.find?_some hfind
      have hmem := List.mem_of_find?_eq_some hfind
      have hval : s = ft.value := by simpa using hp
      refine ⟨hval.symm, ?_⟩
      rw [← members_map_value]
      exact hval ▸ List.mem_map_of_mem FeatureType.value hmem
  | none =>
      refine ⟨rfl, fun hs => ?_⟩
      rw [← members_map_value] at hs
      obtain ⟨ft, hft, hval⟩ := List.mem_map.mp hs
      have := List.find?_eq_none.mp hfind ft hft
      simp [hval] at this

/-- C9: `ndim` returns a defined rank if and only if `contains_ndarrays`
is true: every array-backed value has a rank and no other value does. -/
theorem ndim_isSome_iff_contains_ndarrays (ft : FeatureType) :
    (FeatureType.ndim ft).isSome = FeatureType.contains_ndarrays ft := by
  revert ft; decide

/-- C10: for every array-backed value, the rank decomposes as one
channel dimension, plus two spatial dimensions when spatial, plus one
temporal dimension when time-dependent:
`ndim = 1 + (2 if is_spatial else 0) + (1 if is_time_dependent else 0)`. -/
theorem ndim_decomposition (ft : FeatureType)
    (h : FeatureType.contains_ndarrays ft = true) :
    FeatureType.ndim ft =
      some (1 + (if FeatureType.is_spatial ft then 2 else 0) +
        (if FeatureType.is_time_dependent ft then 1 else 0)) := by
  revert h; revert ft; decide

/-- C10 witness: the decomposition evaluated at DATA (array-backed,
spatial, time-dependent, rank 4). -/
theorem ndim_decomposition_witness :
    FeatureType.contains_ndarrays .DATA = true ∧
    FeatureType.ndim .DATA =
      some (1 + (if FeatureType.is_spatial .DATA then 2 else 0) +
        (if FeatureType.is_time_dependent .DATA then 1 else 0)) :=
  ⟨by decide, ndim_decomposition .DATA (by decide)⟩

end EOLearn
